import Mathlib

/-!
Shallow embedding of the Go binding layer of vlsi/jattach (the files
`jattach.go`, `src/posix/jattach_posix.go`, `src/windows/jattach_windows.go`,
`jattach_posix_impl.go`, `jattach_windows_impl.go`) together with the
properties claimed about it.

The native jattach core is a C function reachable only through CGo
(`extern int jattach(int pid, int argc, char** argv, int print_output)`);
its C sources are not part of this development, so it is kept abstract as
a `Core` record: an exit code and the text it writes to the process
standard output, both as functions of the arguments the Go layer hands it.

Process-global output state (`os.Stdout`, the pipe used by
`AttachWithOutput`) is made explicit as a `StdioState` threaded through the
functions, and every invocation of the native core is recorded in an
`invoked` trace so that "the core is not reached" is a provable statement.
-/

namespace Jattach

/-- Abstract model of the native jattach core (C sources, reachable from the
Go layer only through the CGo declaration
`extern int jattach(int pid, int argc, char** argv, int print_output)`).
`exitCode` is the integer the C function returns; `output` is the text it
writes to the process standard output during the exchange. -/
structure Core where
  exitCode : Int → List String → Bool → Int
  output : Int → List String → Bool → String

/-- Where the process-global `os.Stdout` currently points: the caller's real
standard output, or the write end of the pipe created by
`AttachWithOutput`. -/
inductive Sink where
  | real : Sink
  | pipe : Sink
deriving DecidableEq

/-- The output-related process state threaded through the embedding:
the current value of the global `os.Stdout`, the bytes that have reached the
caller's real standard output, and the bytes accumulated in the pipe
buffer. -/
structure StdioState where
  stdout : Sink
  realOut : String
  pipeBuf : String
deriving DecidableEq

/-- Writing through the process's inherited standard-output file
descriptor (fd 1).  The native core is a C function reached through the
CGo boundary `extern int jattach(int pid, int argc, char** argv,
int print_output)`: it receives only a pid, an argument vector and a flag,
so it cannot observe the Go `os.Stdout` package variable, and no
`dup2`-style descriptor redirection exists anywhere in the sources.  Its
output therefore lands on the inherited descriptor — the caller's real
standard output — whatever `os.Stdout` currently names. -/
def writeFd1 (st : StdioState) (s : String) : StdioState :=
  { st with realOut := st.realOut ++ s }

/-- Result of `CallJattach`: the returned exit code, the returned Go error
(`none` models a nil error), and the trace of native-core invocations made
during the call (each entry is the pid, argument vector and print flag
passed to the C function). -/
structure CallResult where
  exitCode : Int
  err : Option String
  invoked : List (Int × List String × Bool)
deriving DecidableEq

/-- Embedding of `CallJattach` from `src/posix/jattach_posix.go` (the
Windows variant in `src/windows/jattach_windows.go` has the same Go-level
logic): reject `pid <= 0` with an `invalid PID` error, reject an empty
argument vector with a `no command specified` error, and otherwise invoke
the native core, returning its exit code with a nil error.  The core's
output goes through the inherited stdout descriptor (`writeFd1`): the
reassignable Go `os.Stdout` variable is invisible across the CGo
boundary. -/
def CallJattach (core : Core) (pid : Int) (args : List String)
    (printOutput : Bool) (st : StdioState) : CallResult × StdioState :=
  if pid ≤ 0 then
    (⟨1, some ("invalid PID: " ++ toString pid), []⟩, st)
  else if args.length = 0 then
    (⟨1, some "no command specified", []⟩, st)
  else
    (⟨core.exitCode pid args printOutput, none, [(pid, args, printOutput)]⟩,
      writeFd1 st (core.output pid args printOutput))

/-- Go's `append(xs, ys...)` on string slices, as used in
`append([]string{string(cmd)}, args...)`. -/
def goAppend (xs ys : List String) : List String := xs ++ ys

/-- In the Go package, `Command` is a string type. -/
abbrev Command := String

/-- `Load` command constant. -/
def Load : Command := "load"

/-- `ThreadDump` command constant. -/
def ThreadDump : Command := "threaddump"

/-- `DumpHeap` command constant. -/
def DumpHeap : Command := "dumpheap"

/-- `InspectHeap` command constant. -/
def InspectHeap : Command := "inspectheap"

/-- `DataDump` command constant. -/
def DataDump : Command := "datadump"

/-- `Properties` command constant. -/
def Properties : Command := "properties"

/-- `AgentProperties` command constant. -/
def AgentProperties : Command := "agentProperties"

/-- `SetFlag` command constant. -/
def SetFlag : Command := "setflag"

/-- `PrintFlag` command constant. -/
def PrintFlag : Command := "printflag"

/-- `Jcmd` command constant. -/
def Jcmd : Command := "jcmd"

/-- Embedding of `Attach`: prepend the command name to the arguments and
call `callJattach` with `printOutput = true`; the core's output passes
through to the caller's standard output via the inherited descriptor. -/
def Attach (core : Core) (pid : Int) (cmd : Command) (args : List String)
    (st : StdioState) : CallResult × StdioState :=
  let cmdArgs := goAppend [cmd] args
  CallJattach core pid cmdArgs true st

/-- Embedding of `AttachWithOutput`.  `pipeErr` models the outcome of
`os.Pipe()` (`none` = success).  On success: save `os.Stdout`, reassign the
variable to the pipe's write end, run `callJattach`, close the write end,
read from the channel whatever the copying goroutine drained out of the
pipe, and — via the deferred function — restore `os.Stdout` before
returning.  The pipe buffer receives only writes made through the
reassigned `os.Stdout` variable; the native core's output does not go
through it (see `writeFd1`), so nothing ever reaches the buffer. -/
def AttachWithOutput (core : Core) (pipeErr : Option String) (pid : Int)
    (cmd : Command) (args : List String) (st : StdioState) :
    (String × CallResult) × StdioState :=
  match pipeErr with
  | some e => (("", ⟨1, some ("failed to create pipe: " ++ e), []⟩), st)
  | none =>
    let oldStdout := st.stdout
    let st1 : StdioState := { st with stdout := Sink.pipe, pipeBuf := "" }
    let cmdArgs := goAppend [cmd] args
    let (res, st2) := CallJattach core pid cmdArgs true st1
    let output := st2.pipeBuf
    let st3 : StdioState := { st2 with stdout := oldStdout }
    ((output, res), st3)

/-- Embedding of `GetThreadDump`. -/
def GetThreadDump (core : Core) (pipeErr : Option String) (pid : Int)
    (st : StdioState) : (String × Option String) × StdioState :=
  let r := AttachWithOutput core pipeErr pid ThreadDump [] st
  let output := r.1.1
  let res := r.1.2
  match res.err with
  | some e => (("", some e), r.2)
  | none =>
    if res.exitCode ≠ 0 then
      (("", some ("threaddump command failed with exit code " ++
        toString res.exitCode)), r.2)
    else
      ((output, none), r.2)

/-- Embedding of `HeapDump`. -/
def HeapDump (core : Core) (pipeErr : Option String) (pid : Int)
    (filepath : String) (st : StdioState) : Option String × StdioState :=
  let r := AttachWithOutput core pipeErr pid DumpHeap [filepath] st
  let res := r.1.2
  match res.err with
  | some e => (some e, r.2)
  | none =>
    if res.exitCode ≠ 0 then
      (some ("dumpheap command failed with exit code " ++
        toString res.exitCode), r.2)
    else
      (none, r.2)

/-- Embedding of `GetHeapHistogram`. -/
def GetHeapHistogram (core : Core) (pipeErr : Option String) (pid : Int)
    (st : StdioState) : (String × Option String) × StdioState :=
  let r := AttachWithOutput core pipeErr pid InspectHeap [] st
  let output := r.1.1
  let res := r.1.2
  match res.err with
  | some e => (("", some e), r.2)
  | none =>
    if res.exitCode ≠ 0 then
      (("", some ("inspectheap command failed with exit code " ++
        toString res.exitCode)), r.2)
    else
      ((output, none), r.2)

/-- The argument list `LoadAgent` builds: the agent path, then the
`"true"`/`"false"` rendering of the `absolute` flag, then the options —
the latter appended only when non-empty. -/
def loadAgentArgs (agentPath : String) (options : String)
    (absolute : Bool) : List String :=
  let absoluteStr := if absolute then "true" else "false"
  if options ≠ "" then goAppend [agentPath, absoluteStr] [options]
  else [agentPath, absoluteStr]

/-- Embedding of `LoadAgent`: builds the argument list
`[agentPath, absoluteStr]`, appending `options` only when non-empty. -/
def LoadAgent (core : Core) (pipeErr : Option String) (pid : Int)
    (agentPath : String) (options : String) (absolute : Bool)
    (st : StdioState) : Option String × StdioState :=
  let args := loadAgentArgs agentPath options absolute
  let r := AttachWithOutput core pipeErr pid Load args st
  let res := r.1.2
  match res.err with
  | some e => (some e, r.2)
  | none =>
    if res.exitCode ≠ 0 then
      (some ("load command failed with exit code " ++
        toString res.exitCode), r.2)
    else
      (none, r.2)

/-- Embedding of `GetSystemProperties`. -/
def GetSystemProperties (core : Core) (pipeErr : Option String) (pid : Int)
    (st : StdioState) : (String × Option String) × StdioState :=
  let r := AttachWithOutput core pipeErr pid Properties [] st
  let output := r.1.1
  let res := r.1.2
  match res.err with
  | some e => (("", some e), r.2)
  | none =>
    if res.exitCode ≠ 0 then
      (("", some ("properties command failed with exit code " ++
        toString res.exitCode)), r.2)
    else
      ((output, none), r.2)

/-- Embedding of `GetAgentProperties`. -/
def GetAgentProperties (core : Core) (pipeErr : Option String) (pid : Int)
    (st : StdioState) : (String × Option String) × StdioState :=
  let r := AttachWithOutput core pipeErr pid AgentProperties [] st
  let output := r.1.1
  let res := r.1.2
  match res.err with
  | some e => (("", some e), r.2)
  | none =>
    if res.exitCode ≠ 0 then
      (("", some ("agentProperties command failed with exit code " ++
        toString res.exitCode)), r.2)
    else
      ((output, none), r.2)

/-- Embedding of `ExecuteJcmd`. -/
def ExecuteJcmd (core : Core) (pipeErr : Option String) (pid : Int)
    (jcmdArgs : List String) (st : StdioState) :
    (String × Option String) × StdioState :=
  let r := AttachWithOutput core pipeErr pid Jcmd jcmdArgs st
  let output := r.1.1
  let res := r.1.2
  match res.err with
  | some e => (("", some e), r.2)
  | none =>
    if res.exitCode ≠ 0 then
      (("", some ("jcmd command failed with exit code " ++
        toString res.exitCode)), r.2)
    else
      ((output, none), r.2)

/-- Embedding of `SetVMFlag`. -/
def SetVMFlag (core : Core) (pipeErr : Option String) (pid : Int)
    (flagName : String) (value : String) (st : StdioState) :
    Option String × StdioState :=
  let r := AttachWithOutput core pipeErr pid SetFlag [flagName, value] st
  let res := r.1.2
  match res.err with
  | some e => (some e, r.2)
  | none =>
    if res.exitCode ≠ 0 then
      (some ("setflag command failed with exit code " ++
        toString res.exitCode), r.2)
    else
      (none, r.2)

/-- Embedding of `PrintVMFlag`. -/
def PrintVMFlag (core : Core) (pipeErr : Option String) (pid : Int)
    (flagName : String) (st : StdioState) :
    (String × Option String) × StdioState :=
  let r := AttachWithOutput core pipeErr pid PrintFlag [flagName] st
  let output := r.1.1
  let res := r.1.2
  match res.err with
  | some e => (("", some e), r.2)
  | none =>
    if res.exitCode ≠ 0 then
      (("", some ("printflag command failed with exit code " ++
        toString res.exitCode)), r.2)
    else
      ((output, none), r.2)

/-- Modelled from the spec: the protocol codec lives in the C sources
(`src/posix/*.c`, `src/windows/jattach.c`), which are not part of this
development.  Per §4.4 and §8 of the spec, the active protocol variant caps
the number of argument slots, and a request whose argument count exceeds
that cap is rejected at construction time — an `InvalidArgument` raised
before any bytes are sent, with zero network or signal side effects. -/
structure ProtocolVariant where
  slotLimit : Nat

/-- Side effects of one codec send attempt: the NUL-terminated fields
actually written to the listener socket, and the number of wake-up signals
delivered to the target. -/
structure WireTrace where
  sent : List String
  signals : Nat
deriving DecidableEq

/-- Modelled from the spec: constructing and sending an attach request
(command name plus arguments) under a protocol variant.  Exceeding the
variant's argument-slot limit is a construction-time `InvalidArgument`; no
field is written and no signal is delivered in that case.  Otherwise the
fields go out in order, command name first, after the (at most one)
triggering signal. -/
def sendRequest (v : ProtocolVariant) (cmd : String) (args : List String) :
    Option String × WireTrace :=
  if v.slotLimit < args.length then
    (some "too many arguments", ⟨[], 0⟩)
  else
    (none, ⟨cmd :: args, 1⟩)

/-- A concrete core used by the witness theorems: exit code 7, output
"payload" on every invocation. -/
def sampleCore : Core :=
  ⟨fun _ _ _ => 7, fun _ _ _ => "payload"⟩

/-- A concrete core used by witness theorems needing a zero exit code. -/
def okCore : Core :=
  ⟨fun _ _ _ => 0, fun _ _ _ => "ok"⟩

/-- A concrete initial stdio state for the witness theorems. -/
def sampleSt : StdioState := ⟨Sink.real, "", ""⟩

/-- The contract shared by the string-returning convenience wrappers:
given `u`, the result of the underlying `AttachWithOutput` call, and `w`,
the wrapper's result, the wrapper succeeds exactly when `u` carried a nil
error and exit code zero, and on a non-zero exit code it discards the
captured output (returning the empty string) together with an error naming
the command and the exit code. -/
abbrev WrapperContractStr (name : String)
    (u : (String × CallResult) × StdioState)
    (w : (String × Option String) × StdioState) : Prop :=
  (w.1.2 = none ↔ (u.1.2.err = none ∧ u.1.2.exitCode = 0)) ∧
  (u.1.2.err = none → u.1.2.exitCode ≠ 0 →
    w.1 = ("", some (name ++ " command failed with exit code " ++
      toString u.1.2.exitCode)))

/-- The contract shared by the error-only convenience wrappers (`HeapDump`,
`LoadAgent`, `SetVMFlag`): success exactly when the underlying call carried
a nil error and exit code zero, and on a non-zero exit code an error naming
the command and the exit code. -/
abbrev WrapperContractUnit (name : String)
    (u : (String × CallResult) × StdioState)
    (w : Option String × StdioState) : Prop :=
  (w.1 = none ↔ (u.1.2.err = none ∧ u.1.2.exitCode = 0)) ∧
  (u.1.2.err = none → u.1.2.exitCode ≠ 0 →
    w.1 = some (name ++ " command failed with exit code " ++
      toString u.1.2.exitCode))

/-- C1: when a local failure occurs before the native core is invoked
(non-positive pid or empty argument vector), `CallJattach` returns a local
error value and never reaches the core; when no local failure occurs, the
returned exit code is exactly the native core's return value, paired with a
nil error — and hence `Attach`, for a positive pid, returns exactly the
core's exit code with a nil error. -/
theorem callJattach_exit_code_passthrough (core : Core) (pid : Int)
    (args : List String) (printOutput : Bool) (cmd : Command)
    (st : StdioState) :
    ((pid ≤ 0 ∨ args = []) →
      ((CallJattach core pid args printOutput st).1.err.isSome = true ∧
       (CallJattach core pid args printOutput st).1.invoked = [])) ∧
    (0 < pid → args ≠ [] →
      (CallJattach core pid args printOutput st).1 =
        ⟨core.exitCode pid args printOutput, none, [(pid, args, printOutput)]⟩) ∧
    (0 < pid →
      ((Attach core pid cmd args st).1.exitCode =
         core.exitCode pid (cmd :: args) true ∧
       (Attach core pid cmd args st).1.err = none)) := by
  refine ⟨?_, ?_, ?_⟩
  · rintro (h | h)
    · simp [CallJattach, h]
    · rcases Int.le_or_lt pid 0 with hp | hp
      · simp [CallJattach, hp]
      · simp [CallJattach, hp.not_le, h]
  · intro hp ha
    simp [CallJattach, hp.not_le, List.length_eq_zero, ha]
  · intro hp
    simp [Attach, goAppend, CallJattach, hp.not_le]

/-- Witness for C1, at a rejected input (pid 0) and an accepted one
(pid 5, command `load`). -/
theorem callJattach_exit_code_passthrough_witness :
    (CallJattach sampleCore 0 ["load"] true sampleSt).1.invoked = [] ∧
    (CallJattach sampleCore 5 ["load"] true sampleSt).1 =
      ⟨sampleCore.exitCode 5 ["load"] true, none, [(5, ["load"], true)]⟩ ∧
    (Attach sampleCore 5 "load" [] sampleSt).1.err = none :=
  ⟨((callJattach_exit_code_passthrough sampleCore 0 ["load"] true "load"
      sampleSt).1 (Or.inl (by decide))).2,
   (callJattach_exit_code_passthrough sampleCore 5 ["load"] true "load"
      sampleSt).2.1 (by decide) (by simp),
   ((callJattach_exit_code_passthrough sampleCore 5 [] true "load"
      sampleSt).2.2 (by decide)).2⟩

/-- C2: for every non-positive pid, `CallJattach` — and therefore `Attach`
and `AttachWithOutput` — fails with the invalid-PID error, the native core
is never invoked, and the stdio state is untouched (no filesystem, signal
or socket side effect). -/
theorem callJattach_rejects_nonpositive_pid (core : Core) (pid : Int)
    (args : List String) (printOutput : Bool) (cmd : Command)
    (st : StdioState) (h : pid ≤ 0) :
    (CallJattach core pid args printOutput st).1.err =
      some ("invalid PID: " ++ toString pid) ∧
    (CallJattach core pid args printOutput st).1.invoked = [] ∧
    (CallJattach core pid args printOutput st).2 = st ∧
    (Attach core pid cmd args st).1.invoked = [] ∧
    (AttachWithOutput core none pid cmd args st).1.2.invoked = [] := by
  refine ⟨?_, ?_, ?_, ?_, ?_⟩ <;>
    simp [CallJattach, Attach, AttachWithOutput, goAppend, h]

/-- Witness for C2 at pid = 0. -/
theorem callJattach_rejects_nonpositive_pid_witness :
    (CallJattach sampleCore 0 ["properties"] true sampleSt).1.err =
      some ("invalid PID: " ++ toString (0 : Int)) ∧
    (CallJattach sampleCore 0 ["properties"] true sampleSt).1.invoked = [] :=
  ⟨(callJattach_rejects_nonpositive_pid sampleCore 0 ["properties"] true
      "properties" sampleSt (by decide)).1,
   (callJattach_rejects_nonpositive_pid sampleCore 0 ["properties"] true
      "properties" sampleSt (by decide)).2.1⟩

/-- C6: for every positive pid, `CallJattach` with an empty argument vector
fails with the `no command specified` error before any I/O: the native core
is never invoked and the stdio state is untouched. -/
theorem callJattach_rejects_empty_args (core : Core) (pid : Int)
    (printOutput : Bool) (st : StdioState) (h : 0 < pid) :
    (CallJattach core pid [] printOutput st).1.err =
      some "no command specified" ∧
    (CallJattach core pid [] printOutput st).1.invoked = [] ∧
    (CallJattach core pid [] printOutput st).2 = st := by
  refine ⟨?_, ?_, ?_⟩ <;> simp [CallJattach, h.not_le]

/-- Witness for C6 at pid = 1. -/
theorem callJattach_rejects_empty_args_witness :
    (CallJattach sampleCore 1 [] true sampleSt).1.err =
      some "no command specified" ∧
    (CallJattach sampleCore 1 [] true sampleSt).1.invoked = [] :=
  ⟨(callJattach_rejects_empty_args sampleCore 1 true sampleSt (by decide)).1,
   (callJattach_rejects_empty_args sampleCore 1 true sampleSt (by decide)).2.1⟩

/-- C7: the package's `Command` constants are exactly the ten string
literals of the command surface. -/
theorem command_constants :
    Load = "load" ∧ ThreadDump = "threaddump" ∧ DumpHeap = "dumpheap" ∧
    InspectHeap = "inspectheap" ∧ DataDump = "datadump" ∧
    Properties = "properties" ∧ AgentProperties = "agentProperties" ∧
    SetFlag = "setflag" ∧ PrintFlag = "printflag" ∧ Jcmd = "jcmd" :=
  ⟨rfl, rfl, rfl, rfl, rfl, rfl, rfl, rfl, rfl, rfl⟩

/-- C3: when the argument count exceeds the active protocol variant's slot
limit, request construction fails with an invalid-argument error before any
bytes are sent: no field reaches the wire and no signal is delivered. -/
theorem sendRequest_slot_limit (v : ProtocolVariant) (cmd : String)
    (args : List String) (h : v.slotLimit < args.length) :
    (sendRequest v cmd args).1.isSome = true ∧
    (sendRequest v cmd args).2.sent = [] ∧
    (sendRequest v cmd args).2.signals = 0 := by
  refine ⟨?_, ?_, ?_⟩ <;> simp [sendRequest, h]

/-- Witness for C3: four arguments against a three-slot variant. -/
theorem sendRequest_slot_limit_witness :
    (sendRequest ⟨3⟩ "load" ["a", "b", "c", "d"]).2.sent = [] :=
  (sendRequest_slot_limit ⟨3⟩ "load" ["a", "b", "c", "d"] (by decide)).2.1

/-- C4: the claimed capture does not happen.  The code's own documentation
says `AttachWithOutput` "captures stdout instead of printing it", but the
reassignment `os.Stdout = w` cannot redirect the native core's writes: the
C core sees only the inherited descriptor (there is no `dup2`-style
redirection anywhere in the sources).  Evaluated at pid 5, command `jcmd`,
argument `VM.version`, against a core producing `"payload"` with exit code
7: the captured string comes back empty while the payload reaches the
caller's real standard output (and the exit code is still relayed). -/
theorem attachWithOutput_capture_fails :
    (AttachWithOutput sampleCore none 5 "jcmd" ["VM.version"]
      sampleSt).1.1 = "" ∧
    ((AttachWithOutput sampleCore none 5 "jcmd" ["VM.version"]
      sampleSt).2).realOut = "payload" ∧
    (AttachWithOutput sampleCore none 5 "jcmd" ["VM.version"]
      sampleSt).1.2.exitCode = 7 := by
  refine ⟨?_, ?_, ?_⟩ <;> rfl

/-- C5: for a positive pid, `Attach` and `AttachWithOutput` hand the
platform core the argument vector consisting of the command name first,
then the caller's arguments in their original order — nothing reordered,
dropped or modified. -/
theorem attach_passes_cmd_then_args (core : Core) (pid : Int)
    (cmd : Command) (args : List String) (st : StdioState) (h : 0 < pid) :
    goAppend [cmd] args = cmd :: args ∧
    (Attach core pid cmd args st).1.invoked = [(pid, cmd :: args, true)] ∧
    (AttachWithOutput core none pid cmd args st).1.2.invoked =
      [(pid, cmd :: args, true)] := by
  refine ⟨rfl, ?_, ?_⟩ <;>
    simp [Attach, AttachWithOutput, CallJattach, goAppend, h.not_le]

/-- Witness for C5 at pid 5, command `jcmd`, arguments
`["VM.flags", "-all"]`. -/
theorem attach_passes_cmd_then_args_witness :
    (Attach sampleCore 5 "jcmd" ["VM.flags", "-all"] sampleSt).1.invoked =
      [(5, ["jcmd", "VM.flags", "-all"], true)] :=
  (attach_passes_cmd_then_args sampleCore 5 "jcmd" ["VM.flags", "-all"]
    sampleSt (by decide)).2.1

/-- C9: whenever `AttachWithOutput` proceeds past pipe creation, the
process-global `os.Stdout` is restored to exactly its entry value by the
time the function returns, on the success and on the failure path alike. -/
theorem attachWithOutput_restores_stdout (core : Core) (pid : Int)
    (cmd : Command) (args : List String) (st : StdioState) :
    ((AttachWithOutput core none pid cmd args st).2).stdout = st.stdout := by
  rcases Int.le_or_lt pid 0 with hp | hp
  · simp [AttachWithOutput, CallJattach, goAppend, hp]
  · simp [AttachWithOutput, CallJattach, goAppend, hp.not_le, writeFd1]

/-- C10: `Attach` and `AttachWithOutput` always pass a vector of length at
least one to `CallJattach`, so the missing-command check can never fire
through them: for a positive pid the core is invoked — even when the
command name is the empty string, which is forwarded rather than rejected —
and for a non-positive pid the error is the invalid-PID one. -/
theorem attach_never_missing_command (core : Core) (pid : Int)
    (cmd : Command) (args : List String) (st : StdioState) :
    (goAppend [cmd] args).length ≥ 1 ∧
    (0 < pid →
      ((Attach core pid cmd args st).1.err = none ∧
       (Attach core pid cmd args st).1.invoked = [(pid, cmd :: args, true)] ∧
       (AttachWithOutput core none pid cmd args st).1.2.invoked =
         [(pid, cmd :: args, true)])) ∧
    (pid ≤ 0 →
      (Attach core pid cmd args st).1.err =
        some ("invalid PID: " ++ toString pid)) := by
  refine ⟨by simp [goAppend], ?_, ?_⟩
  · intro hp
    refine ⟨?_, ?_, ?_⟩ <;>
      simp [Attach, AttachWithOutput, CallJattach, goAppend, hp.not_le,
        writeFd1]
  · intro hp
    simp [Attach, CallJattach, goAppend, hp]

/-- Witness for C10: the empty-string command is forwarded at pid 5; the
invalid-PID error fires at pid 0. -/
theorem attach_never_missing_command_witness :
    (Attach sampleCore 5 "" ["x"] sampleSt).1.invoked =
      [(5, ["", "x"], true)] ∧
    (Attach sampleCore 0 "" [] sampleSt).1.err =
      some ("invalid PID: " ++ toString (0 : Int)) :=
  ⟨((attach_never_missing_command sampleCore 5 "" ["x"] sampleSt).2.1
      (by decide)).2.1,
   (attach_never_missing_command sampleCore 0 "" [] sampleSt).2.2
      (by decide)⟩

/-- Helper: `GetThreadDump` meets the shared wrapper contract. -/
theorem getThreadDump_contract (core : Core) (pipeErr : Option String)
    (pid : Int) (st : StdioState) :
    WrapperContractStr "threaddump"
      (AttachWithOutput core pipeErr pid ThreadDump [] st)
      (GetThreadDump core pipeErr pid st) := by
  unfold WrapperContractStr GetThreadDump
  rcases h : (AttachWithOutput core pipeErr pid ThreadDump [] st).1.2.err
    with _ | e
  · by_cases hc :
      (AttachWithOutput core pipeErr pid ThreadDump [] st).1.2.exitCode = 0 <;>
      simp [h, hc]
  · simp [h]

/-- Helper: `HeapDump` meets the shared wrapper contract. -/
theorem heapDump_contract (core : Core) (pipeErr : Option String)
    (pid : Int) (filepath : String) (st : StdioState) :
    WrapperContractUnit "dumpheap"
      (AttachWithOutput core pipeErr pid DumpHeap [filepath] st)
      (HeapDump core pipeErr pid filepath st) := by
  unfold WrapperContractUnit HeapDump
  rcases h : (AttachWithOutput core pipeErr pid DumpHeap [filepath]
      st).1.2.err with _ | e
  · by_cases hc : (AttachWithOutput core pipeErr pid DumpHeap [filepath]
        st).1.2.exitCode = 0 <;>
      simp [h, hc]
  · simp [h]

/-- Helper: `GetHeapHistogram` meets the shared wrapper contract. -/
theorem getHeapHistogram_contract (core : Core) (pipeErr : Option String)
    (pid : Int) (st : StdioState) :
    WrapperContractStr "inspectheap"
      (AttachWithOutput core pipeErr pid InspectHeap [] st)
      (GetHeapHistogram core pipeErr pid st) := by
  unfold WrapperContractStr GetHeapHistogram
  rcases h : (AttachWithOutput core pipeErr pid InspectHeap [] st).1.2.err
    with _ | e
  · by_cases hc : (AttachWithOutput core pipeErr pid InspectHeap []
        st).1.2.exitCode = 0 <;>
      simp [h, hc]
  · simp [h]

/-- Helper: `LoadAgent` meets the shared wrapper contract. -/
theorem loadAgent_contract (core : Core) (pipeErr : Option String)
    (pid : Int) (agentPath options : String) (absolute : Bool)
    (st : StdioState) :
    WrapperContractUnit "load"
      (AttachWithOutput core pipeErr pid Load
        (loadAgentArgs agentPath options absolute) st)
      (LoadAgent core pipeErr pid agentPath options absolute st) := by
  unfold WrapperContractUnit LoadAgent
  rcases h : (AttachWithOutput core pipeErr pid Load
      (loadAgentArgs agentPath options absolute) st).1.2.err with _ | e
  · by_cases hc : (AttachWithOutput core pipeErr pid Load
        (loadAgentArgs agentPath options absolute) st).1.2.exitCode = 0 <;>
      simp [h, hc]
  · simp [h]

/-- Helper: `GetSystemProperties` meets the shared wrapper contract. -/
theorem getSystemProperties_contract (core : Core) (pipeErr : Option String)
    (pid : Int) (st : StdioState) :
    WrapperContractStr "properties"
      (AttachWithOutput core pipeErr pid Properties [] st)
      (GetSystemProperties core pipeErr pid st) := by
  unfold WrapperContractStr GetSystemProperties
  rcases h : (AttachWithOutput core pipeErr pid Properties [] st).1.2.err
    with _ | e
  · by_cases hc : (AttachWithOutput core pipeErr pid Properties []
        st).1.2.exitCode = 0 <;>
      simp [h, hc]
  · simp [h]

/-- Helper: `GetAgentProperties` meets the shared wrapper contract. -/
theorem getAgentProperties_contract (core : Core) (pipeErr : Option String)
    (pid : Int) (st : StdioState) :
    WrapperContractStr "agentProperties"
      (AttachWithOutput core pipeErr pid AgentProperties [] st)
      (GetAgentProperties core pipeErr pid st) := by
  unfold WrapperContractStr GetAgentProperties
  rcases h : (AttachWithOutput core pipeErr pid AgentProperties []
      st).1.2.err with _ | e
  · by_cases hc : (AttachWithOutput core pipeErr pid AgentProperties []
        st).1.2.exitCode = 0 <;>
      simp [h, hc]
  · simp [h]

/-- Helper: `ExecuteJcmd` meets the shared wrapper contract. -/
theorem executeJcmd_contract (core : Core) (pipeErr : Option String)
    (pid : Int) (jcmdArgs : List String) (st : StdioState) :
    WrapperContractStr "jcmd"
      (AttachWithOutput core pipeErr pid Jcmd jcmdArgs st)
      (ExecuteJcmd core pipeErr pid jcmdArgs st) := by
  unfold WrapperContractStr ExecuteJcmd
  rcases h : (AttachWithOutput core pipeErr pid Jcmd jcmdArgs st).1.2.err
    with _ | e
  · by_cases hc : (AttachWithOutput core pipeErr pid Jcmd jcmdArgs
        st).1.2.exitCode = 0 <;>
      simp [h, hc]
  · simp [h]

/-- Helper: `SetVMFlag` meets the shared wrapper contract. -/
theorem setVMFlag_contract (core : Core) (pipeErr : Option String)
    (pid : Int) (flagName value : String) (st : StdioState) :
    WrapperContractUnit "setflag"
      (AttachWithOutput core pipeErr pid SetFlag [flagName, value] st)
      (SetVMFlag core pipeErr pid flagName value st) := by
  unfold WrapperContractUnit SetVMFlag
  rcases h : (AttachWithOutput core pipeErr pid SetFlag [flagName, value]
      st).1.2.err with _ | e
  · by_cases hc : (AttachWithOutput core pipeErr pid SetFlag
        [flagName, value] st).1.2.exitCode = 0 <;>
      simp [h, hc]
  · simp [h]

/-- Helper: `PrintVMFlag` meets the shared wrapper contract. -/
theorem printVMFlag_contract (core : Core) (pipeErr : Option String)
    (pid : Int) (flagName : String) (st : StdioState) :
    WrapperContractStr "printflag"
      (AttachWithOutput core pipeErr pid PrintFlag [flagName] st)
      (PrintVMFlag core pipeErr pid flagName st) := by
  unfold WrapperContractStr PrintVMFlag
  rcases h : (AttachWithOutput core pipeErr pid PrintFlag [flagName]
      st).1.2.err with _ | e
  · by_cases hc : (AttachWithOutput core pipeErr pid PrintFlag [flagName]
        st).1.2.exitCode = 0 <;>
      simp [h, hc]
  · simp [h]

/-- C8: each of the nine convenience wrappers returns success exactly when
its underlying `AttachWithOutput` call returned a nil error and exit code
zero; when the target reports a non-zero exit code, the wrapper discards
the captured output (returning the empty string where a string is
returned) and returns an error naming the command and the exit code. -/
theorem wrappers_exit_code_contract (core : Core) (pipeErr : Option String)
    (pid : Int) (st : StdioState) (filepath agentPath options : String)
    (absolute : Bool) (flagName value : String) (jcmdArgs : List String) :
    WrapperContractStr "threaddump"
      (AttachWithOutput core pipeErr pid ThreadDump [] st)
      (GetThreadDump core pipeErr pid st) ∧
    WrapperContractUnit "dumpheap"
      (AttachWithOutput core pipeErr pid DumpHeap [filepath] st)
      (HeapDump core pipeErr pid filepath st) ∧
    WrapperContractStr "inspectheap"
      (AttachWithOutput core pipeErr pid InspectHeap [] st)
      (GetHeapHistogram core pipeErr pid st) ∧
    WrapperContractUnit "load"
      (AttachWithOutput core pipeErr pid Load
        (loadAgentArgs agentPath options absolute) st)
      (LoadAgent core pipeErr pid agentPath options absolute st) ∧
    WrapperContractStr "properties"
      (AttachWithOutput core pipeErr pid Properties [] st)
      (GetSystemProperties core pipeErr pid st) ∧
    WrapperContractStr "agentProperties"
      (AttachWithOutput core pipeErr pid AgentProperties [] st)
      (GetAgentProperties core pipeErr pid st) ∧
    WrapperContractStr "jcmd"
      (AttachWithOutput core pipeErr pid Jcmd jcmdArgs st)
      (ExecuteJcmd core pipeErr pid jcmdArgs st) ∧
    WrapperContractUnit "setflag"
      (AttachWithOutput core pipeErr pid SetFlag [flagName, value] st)
      (SetVMFlag core pipeErr pid flagName value st) ∧
    WrapperContractStr "printflag"
      (AttachWithOutput core pipeErr pid PrintFlag [flagName] st)
      (PrintVMFlag core pipeErr pid flagName st) :=
  ⟨getThreadDump_contract core pipeErr pid st,
   heapDump_contract core pipeErr pid filepath st,
   getHeapHistogram_contract core pipeErr pid st,
   loadAgent_contract core pipeErr pid agentPath options absolute st,
   getSystemProperties_contract core pipeErr pid st,
   getAgentProperties_contract core pipeErr pid st,
   executeJcmd_contract core pipeErr pid jcmdArgs st,
   setVMFlag_contract core pipeErr pid flagName value st,
   printVMFlag_contract core pipeErr pid flagName st⟩

/-- Witness for C8: against a core reporting exit code 7 the thread-dump
wrapper discards the output and names the exit code; against a core
reporting exit code 0 it succeeds. -/
theorem wrappers_exit_code_contract_witness :
    (GetThreadDump sampleCore none 5 sampleSt).1 =
      ("", some ("threaddump command failed with exit code " ++
        toString (AttachWithOutput sampleCore none 5 ThreadDump []
          sampleSt).1.2.exitCode)) ∧
    (GetThreadDump okCore none 5 sampleSt).1.2 = none :=
  ⟨(wrappers_exit_code_contract sampleCore none 5 sampleSt "f" "a" ""
      false "n" "v" []).1.2 rfl (by decide),
   (wrappers_exit_code_contract okCore none 5 sampleSt "f" "a" ""
      false "n" "v" []).1.1.mpr ⟨rfl, rfl⟩⟩

end Jattach
